import Mathlib

/-!
Shallow embedding of the Shanghai take-home pay calculator
(src/Shanghai_take-home_pay_calculator.py) and verification of its
specified properties.

Modelling conventions:
* Python `float` values are modelled by `ℚ` (all arithmetic in the program
  is +, -, *, comparisons on decimal constants, so the real-number
  semantics is exact).
* `month_index : int` is modelled by `ℤ`.
* Optional keyword arguments (`si_base`, `hf_rate`, `hf_base`,
  `cumulative_prev_pay`, the `cfg` parameter) are modelled by `Option`.
* The one `ValueError` raise is modelled by `Except String`.
* The bracket bound `float("inf")` is modelled by `none : Option ℚ`
  (the comparison `t <= up_to` is then always true).
-/

namespace ShanghaiPay

/-- One entry of the `brackets` list: `{"up_to": ..., "rate": ..., "quick": ...}`;
`up_to = none` models `float("inf")`. -/
structure TaxBracket where
  up_to : Option ℚ
  rate : ℚ
  quick : ℚ
deriving DecidableEq

/-- The `ShanghaiConfig` dataclass, with the same field defaults. -/
structure ShanghaiConfig where
  si_floor : ℚ := 7384
  si_cap : ℚ := 36921
  hf_floor : ℚ := 2690
  hf_cap : ℚ := 36921
  pension_rate_emp : ℚ := 8/100
  medical_rate_emp : ℚ := 2/100
  unemployment_rate_emp : ℚ := 5/1000
  default_hf_rate_emp : ℚ := 7/100
  standard_deduction_monthly : ℚ := 5000
  brackets : List TaxBracket
deriving DecidableEq

/-- `default_config()`: the dataclass defaults together with the 2024/25
national comprehensive-income bracket table. -/
def default_config : ShanghaiConfig :=
  { brackets :=
      [ ⟨some 36000, 3/100, 0⟩,
        ⟨some 144000, 10/100, 2520⟩,
        ⟨some 300000, 20/100, 16920⟩,
        ⟨some 420000, 25/100, 31920⟩,
        ⟨some 660000, 30/100, 52920⟩,
        ⟨some 960000, 35/100, 85920⟩,
        ⟨none, 45/100, 181920⟩ ] }

/-- `_clamp(x, lo, hi) = max(lo, min(hi, x))`. -/
def _clamp (x lo hi : ℚ) : ℚ := max lo (min hi x)

/-- The dict returned by `calc_employee_social`. -/
structure SocialResult where
  base : ℚ
  pension : ℚ
  medical : ℚ
  unemployment : ℚ
  total : ℚ
deriving DecidableEq

/-- `calc_employee_social(gross, cfg, si_base=None)`. -/
def calc_employee_social (gross : ℚ) (cfg : ShanghaiConfig) (si_base : Option ℚ) :
    SocialResult :=
  let base := _clamp (si_base.getD gross) cfg.si_floor cfg.si_cap
  let pension := base * cfg.pension_rate_emp
  let medical := base * cfg.medical_rate_emp
  let unemployment := base * cfg.unemployment_rate_emp
  { base := base, pension := pension, medical := medical,
    unemployment := unemployment, total := pension + medical + unemployment }

/-- The dict returned by `calc_housing_fund`. -/
structure HousingResult where
  rate : ℚ
  base : ℚ
  amount : ℚ
deriving DecidableEq

/-- `calc_housing_fund(gross, cfg, hf_rate=None, hf_base=None)`. -/
def calc_housing_fund (gross : ℚ) (cfg : ShanghaiConfig)
    (hf_rate hf_base : Option ℚ) : HousingResult :=
  let rate := hf_rate.getD cfg.default_hf_rate_emp
  let base := _clamp (hf_base.getD gross) cfg.hf_floor cfg.hf_cap
  { rate := rate, base := base, amount := base * rate }

/-- The bracket scan loop of `_tax_on_cumulative_taxable`: return
`t*rate - quick` for the first bracket whose bound matches; the `[]` case is
the function's "unreachable due to inf" fallback `t * 0.45 - 181920`. -/
def taxScan (t : ℚ) : List TaxBracket → ℚ
  | [] => t * (45/100) - 181920
  | b :: bs =>
    match b.up_to with
    | none => t * b.rate - b.quick
    | some u => if t ≤ u then t * b.rate - b.quick else taxScan t bs

/-- `_tax_on_cumulative_taxable(cum_taxable, cfg)`:
clamp to 0, then scan the brackets. -/
def _tax_on_cumulative_taxable (cum_taxable : ℚ) (cfg : ShanghaiConfig) : ℚ :=
  taxScan (max 0 cum_taxable) cfg.brackets

/-- The `assumptions` sub-dict of the engine's result. -/
structure PayrollAssumptions where
  standard_deduction_monthly : ℚ
  special_deductions_monthly : ℚ
  si_base_used_this_month : ℚ
  hf_base_used_this_month : ℚ
deriving DecidableEq

/-- The dict returned by `takehome_shanghai`. -/
structure MonthlyResult where
  month_index : ℤ
  gross_salary : ℚ
  take_home : ℚ
  tax_this_month : ℚ
  cumulative_tax_payable : ℚ
  pre_tax_deductions_this_month : ℚ
  social_insurance : SocialResult
  housing_fund : HousingResult
  cumulative_taxable_income : ℚ
  assumptions : PayrollAssumptions
deriving DecidableEq

/-- The message of the `ValueError` raised by `takehome_shanghai`. -/
def length_error_msg : String := "cumulative_prev_pay length must equal month_index - 1"

/-- Lines 103-114 of `takehome_shanghai`: produce
`(cum_income, prev_si_total, prev_hf_total)`, or the `ValueError` on a
history-length mismatch.  In the `none` branch
`prev_m = max(0, month_index - 1)` and the current month's settings are
replayed for every prior month. -/
def resolve_history (gross_salary : ℚ) (month_index : ℤ) (cfg : ShanghaiConfig)
    (si_base hf_rate hf_base : Option ℚ) (cumulative_prev_pay : Option (List ℚ)) :
    Except String (ℚ × ℚ × ℚ) :=
  match cumulative_prev_pay with
  | none =>
    let prev_m : ℤ := max 0 (month_index - 1)
    let cum_income := gross_salary * (month_index : ℚ)
    let prev_si_total := (calc_employee_social gross_salary cfg si_base).total * (prev_m : ℚ)
    let prev_hf_total := (calc_housing_fund gross_salary cfg hf_rate hf_base).amount * (prev_m : ℚ)
    .ok (cum_income, prev_si_total, prev_hf_total)
  | some l =>
    if (l.length : ℤ) ≠ month_index - 1 then
      .error length_error_msg
    else
      .ok (l.sum + gross_salary,
        (l.map fun s => (calc_employee_social s cfg si_base).total).sum,
        (l.map fun s => (calc_housing_fund s cfg hf_rate hf_base).amount).sum)

/-- Lines 116-143 of `takehome_shanghai`: from the cumulative figures,
derive this month's tax and assemble the result dict. -/
def assemble (gross_salary : ℚ) (month_index : ℤ) (cfg : ShanghaiConfig)
    (special_deductions_monthly prev_withheld_tax : ℚ)
    (si : SocialResult) (hf : HousingResult)
    (cum_income prev_si_total prev_hf_total : ℚ) : MonthlyResult :=
  let cum_si := prev_si_total + si.total
  let cum_hf := prev_hf_total + hf.amount
  let cum_standard := cfg.standard_deduction_monthly * (month_index : ℚ)
  let cum_special := special_deductions_monthly * (month_index : ℚ)
  let cum_taxable := cum_income - cum_si - cum_hf - cum_standard - cum_special
  let cum_tax_payable := _tax_on_cumulative_taxable cum_taxable cfg
  let tax_this_month := max 0 (cum_tax_payable - prev_withheld_tax)
  let takehome := gross_salary - si.total - hf.amount - tax_this_month
  { month_index := month_index
    gross_salary := gross_salary
    take_home := takehome
    tax_this_month := tax_this_month
    cumulative_tax_payable := cum_tax_payable
    pre_tax_deductions_this_month := si.total + hf.amount
    social_insurance := si
    housing_fund := hf
    cumulative_taxable_income := max 0 cum_taxable
    assumptions :=
      { standard_deduction_monthly := cfg.standard_deduction_monthly
        special_deductions_monthly := special_deductions_monthly
        si_base_used_this_month := si.base
        hf_base_used_this_month := hf.base } }

/-- `takehome_shanghai(...)`: `cfg = cfg or default_config()` (a dataclass
instance is always truthy, so this falls back exactly when `cfg` is `None`),
current-month contributions, cumulative figures, then the assembled result. -/
def takehome_shanghai (gross_salary : ℚ) (month_index : ℤ)
    (cfg? : Option ShanghaiConfig)
    (special_deductions_monthly : ℚ) (si_base hf_rate hf_base : Option ℚ)
    (cumulative_prev_pay : Option (List ℚ)) (prev_withheld_tax : ℚ) :
    Except String MonthlyResult :=
  let cfg := cfg?.getD default_config
  let si := calc_employee_social gross_salary cfg si_base
  let hf := calc_housing_fund gross_salary cfg hf_rate hf_base
  match resolve_history gross_salary month_index cfg si_base hf_rate hf_base
      cumulative_prev_pay with
  | .error e => .error e
  | .ok (cum_income, prev_si_total, prev_hf_total) =>
    .ok (assemble gross_salary month_index cfg special_deductions_monthly
      prev_withheld_tax si hf cum_income prev_si_total prev_hf_total)

deriving instance DecidableEq for Except

/-! ## Helper lemmas -/

/-- The SI base is the clamped selected base. -/
theorem calc_employee_social_base (gross : ℚ) (cfg : ShanghaiConfig) (si_base : Option ℚ) :
    (calc_employee_social gross cfg si_base).base
      = max cfg.si_floor (min cfg.si_cap (si_base.getD gross)) := rfl

/-- The HF base is the clamped selected base. -/
theorem calc_housing_fund_base (gross : ℚ) (cfg : ShanghaiConfig) (hf_rate hf_base : Option ℚ) :
    (calc_housing_fund gross cfg hf_rate hf_base).base
      = max cfg.hf_floor (min cfg.hf_cap (hf_base.getD gross)) := rfl

/-- `tax_this_month` field of the assembled result. -/
theorem assemble_tax_this_month (g : ℚ) (mi : ℤ) (cfg : ShanghaiConfig) (sdm pwt : ℚ)
    (si : SocialResult) (hf : HousingResult) (ci ps ph : ℚ) :
    (assemble g mi cfg sdm pwt si hf ci ps ph).tax_this_month
      = max 0 ((assemble g mi cfg sdm pwt si hf ci ps ph).cumulative_tax_payable - pwt) := rfl

/-- `cumulative_taxable_income` field of the assembled result. -/
theorem assemble_cumulative_taxable_income (g : ℚ) (mi : ℤ) (cfg : ShanghaiConfig) (sdm pwt : ℚ)
    (si : SocialResult) (hf : HousingResult) (ci ps ph : ℚ) :
    (assemble g mi cfg sdm pwt si hf ci ps ph).cumulative_taxable_income
      = max 0 (ci - (ps + si.total) - (ph + hf.amount)
          - cfg.standard_deduction_monthly * (mi : ℚ) - sdm * (mi : ℚ)) := rfl

/-- The bracket scan over the default table, as nested conditionals. -/
theorem taxScan_default_eq (t : ℚ) :
    taxScan t default_config.brackets =
      if t ≤ 36000 then t * (3/100) - 0
      else if t ≤ 144000 then t * (10/100) - 2520
      else if t ≤ 300000 then t * (20/100) - 16920
      else if t ≤ 420000 then t * (25/100) - 31920
      else if t ≤ 660000 then t * (30/100) - 52920
      else if t ≤ 960000 then t * (35/100) - 85920
      else t * (45/100) - 181920 := by
  simp only [default_config, taxScan]

/-- The month-1, gross-30000, default-config result record, as computed by the
engine (used as a concrete evaluation point). -/
def month1_result : MonthlyResult :=
  { month_index := 1
    gross_salary := 30000
    take_home := 48315/2
    tax_this_month := 1185/2
    cumulative_tax_payable := 1185/2
    pre_tax_deductions_this_month := 5250
    social_insurance := ⟨30000, 2400, 600, 150, 3150⟩
    housing_fund := ⟨7/100, 30000, 2100⟩
    cumulative_taxable_income := 19750
    assumptions := ⟨5000, 0, 30000, 30000⟩ }

/-! ## Claims -/

/-- Claim C4: with gross salary 30000, month_index 1, the default
configuration, hf_rate 0.07, no special deductions, no history and no prior
withheld tax, the engine returns SI total 3150, HF amount 2100, cumulative
taxable income 19750, this-month tax 592.5, and take-home
24157.5 = gross - SI total - HF amount - tax. -/
theorem scenario_month1 :
    ∃ r, takehome_shanghai 30000 1 none 0 none (some (7/100)) none none 0 = .ok r ∧
      r.social_insurance.total = 3150 ∧
      r.housing_fund.amount = 2100 ∧
      r.cumulative_taxable_income = 19750 ∧
      r.tax_this_month = 592.5 ∧
      r.take_home = 24157.5 ∧
      r.take_home = 30000 - r.social_insurance.total - r.housing_fund.amount
        - r.tax_this_month :=
  ⟨month1_result, by
    norm_num [takehome_shanghai, resolve_history, assemble, calc_employee_social,
      calc_housing_fund, _clamp, _tax_on_cumulative_taxable, taxScan,
      month1_result, default_config], by norm_num [month1_result]⟩

/-- Claim C6: the default bracket table is continuous at every boundary:
for each adjacent pair of brackets, evaluating `u * rate - quick` with either
bracket's parameters at the lower bracket's bound `u` gives the same value. -/
theorem bracket_boundary_continuity :
    List.Chain'
      (fun b1 b2 => ∀ u : ℚ, b1.up_to = some u →
        u * b1.rate - b1.quick = u * b2.rate - b2.quick)
      default_config.brackets := by
  simp only [default_config, List.chain'_cons, List.chain'_singleton, and_true]
  refine ⟨?_, ?_, ?_, ?_, ?_, ?_⟩ <;>
    · intro u hu
      rw [Option.some.injEq] at hu
      subst hu
      norm_num

/-- Claim C8: under the default configuration, every cumulative taxable
income ≤ 0 yields cumulative tax payable exactly 0. -/
theorem nonpos_taxable_zero_tax (x : ℚ) (h : x ≤ 0) :
    _tax_on_cumulative_taxable x default_config = 0 := by
  unfold _tax_on_cumulative_taxable
  rw [max_eq_left h, taxScan_default_eq]
  norm_num

/-- Witness for C8 at the concrete input -100. -/
theorem nonpos_taxable_zero_tax_witness :
    (-100 : ℚ) ≤ 0 ∧ _tax_on_cumulative_taxable (-100) default_config = 0 :=
  ⟨by norm_num, nonpos_taxable_zero_tax (-100) (by norm_num)⟩

/-- Claim C10: omitting the configuration (passing `None`) gives exactly the
same result as passing `default_config()`. -/
theorem none_config_is_default (gross : ℚ) (mi : ℤ) (sdm : ℚ) (sb hr hb : Option ℚ)
    (hist : Option (List ℚ)) (pwt : ℚ) :
    takehome_shanghai gross mi none sdm sb hr hb hist pwt
      = takehome_shanghai gross mi (some default_config) sdm sb hr hb hist pwt := rfl

set_option maxHeartbeats 2000000 in
/-- Claim C7: under the default configuration the progressive tax function is
monotone non-decreasing in the cumulative taxable income. -/
theorem tax_monotone (x y : ℚ) (h : x ≤ y) :
    _tax_on_cumulative_taxable x default_config
      ≤ _tax_on_cumulative_taxable y default_config := by
  unfold _tax_on_cumulative_taxable
  rw [taxScan_default_eq, taxScan_default_eq]
  have h0 : (0 : ℚ) ≤ max 0 x := le_max_left _ _
  have hxy : max 0 x ≤ max 0 y := max_le_max le_rfl h
  set a := max (0 : ℚ) x with ha
  set b := max (0 : ℚ) y with hb
  split_ifs <;> linarith

/-- Witness for C7 at the concrete inputs 10000 ≤ 200000. -/
theorem tax_monotone_witness :
    (10000 : ℚ) ≤ 200000 ∧
      _tax_on_cumulative_taxable 10000 default_config
        ≤ _tax_on_cumulative_taxable 200000 default_config :=
  ⟨by norm_num, tax_monotone 10000 200000 (by norm_num)⟩

/-- Claim C5: with floor ≤ cap, the contribution base used by each calculator
is the selected base (override if given, else gross) clamped into
[floor, cap]: below the floor it is the floor, above the cap it is the cap,
inside the range it is the selected base itself. -/
theorem clamping_behaviour (cfg : ShanghaiConfig) (gross : ℚ) (sb hr hb : Option ℚ)
    (h1 : cfg.si_floor ≤ cfg.si_cap) (h2 : cfg.hf_floor ≤ cfg.hf_cap) :
    ((sb.getD gross < cfg.si_floor →
        (calc_employee_social gross cfg sb).base = cfg.si_floor) ∧
      (cfg.si_cap < sb.getD gross →
        (calc_employee_social gross cfg sb).base = cfg.si_cap) ∧
      (cfg.si_floor ≤ sb.getD gross → sb.getD gross ≤ cfg.si_cap →
        (calc_employee_social gross cfg sb).base = sb.getD gross)) ∧
    ((hb.getD gross < cfg.hf_floor →
        (calc_housing_fund gross cfg hr hb).base = cfg.hf_floor) ∧
      (cfg.hf_cap < hb.getD gross →
        (calc_housing_fund gross cfg hr hb).base = cfg.hf_cap) ∧
      (cfg.hf_floor ≤ hb.getD gross → hb.getD gross ≤ cfg.hf_cap →
        (calc_housing_fund gross cfg hr hb).base = hb.getD gross)) := by
  rw [calc_employee_social_base, calc_housing_fund_base]
  refine ⟨⟨fun hlt => ?_, fun hgt => ?_, fun hlo hhi => ?_⟩,
    ⟨fun hlt => ?_, fun hgt => ?_, fun hlo hhi => ?_⟩⟩
  · rw [min_eq_right (by linarith), max_eq_left (by linarith)]
  · rw [min_eq_left (by linarith), max_eq_right (by linarith)]
  · rw [min_eq_right (by linarith), max_eq_right (by linarith)]
  · rw [min_eq_right (by linarith), max_eq_left (by linarith)]
  · rw [min_eq_left (by linarith), max_eq_right (by linarith)]
  · rw [min_eq_right (by linarith), max_eq_right (by linarith)]

/-- Witness for C5: the default configuration with a below-floor salary. -/
theorem clamping_behaviour_witness :
    default_config.si_floor ≤ default_config.si_cap ∧
    default_config.hf_floor ≤ default_config.hf_cap ∧
    (((Option.getD none 1000 < default_config.si_floor →
        (calc_employee_social 1000 default_config none).base = default_config.si_floor) ∧
      (default_config.si_cap < Option.getD none 1000 →
        (calc_employee_social 1000 default_config none).base = default_config.si_cap) ∧
      (default_config.si_floor ≤ Option.getD none 1000 →
        Option.getD none 1000 ≤ default_config.si_cap →
        (calc_employee_social 1000 default_config none).base = Option.getD none 1000)) ∧
    ((Option.getD none 1000 < default_config.hf_floor →
        (calc_housing_fund 1000 default_config none none).base = default_config.hf_floor) ∧
      (default_config.hf_cap < Option.getD none 1000 →
        (calc_housing_fund 1000 default_config none none).base = default_config.hf_cap) ∧
      (default_config.hf_floor ≤ Option.getD none 1000 →
        Option.getD none 1000 ≤ default_config.hf_cap →
        (calc_housing_fund 1000 default_config none none).base = Option.getD none 1000))) :=
  ⟨by norm_num [default_config], by norm_num [default_config],
    clamping_behaviour default_config 1000 none none none
      (by norm_num [default_config]) (by norm_num [default_config])⟩

/-- Claim C2: for month_index ≥ 1, a supplied history list raises the
validation error exactly when its length differs from month_index − 1 (so no
result record is produced), and returns a result exactly when the length
equals month_index − 1. -/
theorem length_validation (gross : ℚ) (mi : ℤ) (cfg? : Option ShanghaiConfig)
    (sdm : ℚ) (sb hrt hb : Option ℚ) (l : List ℚ) (pwt : ℚ) (h : 1 ≤ mi) :
    ((∃ e, takehome_shanghai gross mi cfg? sdm sb hrt hb (some l) pwt = .error e)
        ↔ (l.length : ℤ) ≠ mi - 1) ∧
    ((∃ r, takehome_shanghai gross mi cfg? sdm sb hrt hb (some l) pwt = .ok r)
        ↔ (l.length : ℤ) = mi - 1) := by
  simp only [takehome_shanghai, resolve_history]
  by_cases hc : (l.length : ℤ) ≠ mi - 1
  · rw [if_pos hc]
    simp [hc]
  · rw [if_neg hc]
    push_neg at hc
    simp [hc]

/-- Witness for C2 at month_index 2 with the length-1 history [0]. -/
theorem length_validation_witness :
    (1 : ℤ) ≤ 2 ∧
    (((∃ e, takehome_shanghai 0 2 none 0 none none none (some [0]) 0 = .error e)
        ↔ (([0] : List ℚ).length : ℤ) ≠ 2 - 1) ∧
      ((∃ r, takehome_shanghai 0 2 none 0 none none none (some [0]) 0 = .ok r)
        ↔ (([0] : List ℚ).length : ℤ) = 2 - 1)) :=
  ⟨by norm_num, length_validation 0 2 none 0 none none none [0] 0 (by norm_num)⟩

/-- Claim C3: whenever the engine returns a result, this-month's tax is
non-negative and equals max(0, cumulative tax payable − prev_withheld_tax). -/
theorem tax_this_month_spec (gross : ℚ) (mi : ℤ) (cfg? : Option ShanghaiConfig)
    (sdm : ℚ) (sb hrt hb : Option ℚ) (hist : Option (List ℚ)) (pwt : ℚ)
    (r : MonthlyResult)
    (hr_ok : takehome_shanghai gross mi cfg? sdm sb hrt hb hist pwt = .ok r) :
    0 ≤ r.tax_this_month ∧
      r.tax_this_month = max 0 (r.cumulative_tax_payable - pwt) := by
  simp only [takehome_shanghai] at hr_ok
  cases hres : resolve_history gross mi (cfg?.getD default_config) sb hrt hb hist with
  | error e =>
    rw [hres] at hr_ok
    exact absurd hr_ok (by simp)
  | ok t =>
    obtain ⟨ci, ps, ph⟩ := t
    rw [hres] at hr_ok
    simp only [Except.ok.injEq] at hr_ok
    subst hr_ok
    refine ⟨?_, ?_⟩ <;> rw [assemble_tax_this_month]
    exact le_max_left _ _

/-- Witness for C3 at the month-1, gross-30000 default run. -/
theorem tax_this_month_spec_witness :
    0 ≤ month1_result.tax_this_month ∧
      month1_result.tax_this_month
        = max 0 (month1_result.cumulative_tax_payable - 0) :=
  tax_this_month_spec 30000 1 none 0 none none none none 0 month1_result (by
    norm_num [takehome_shanghai, resolve_history, assemble, calc_employee_social,
      calc_housing_fund, _clamp, _tax_on_cumulative_taxable, taxScan,
      month1_result, default_config])

/-- Claim C9: whenever the engine returns a result, the reported
cumulative_taxable_income equals max(0, cumulative income − cumulative SI −
cumulative HF − cumulative standard deduction − cumulative special
deduction), and so is never negative. -/
theorem reported_taxable_income_spec (gross : ℚ) (mi : ℤ) (cfg? : Option ShanghaiConfig)
    (sdm : ℚ) (sb hrt hb : Option ℚ) (hist : Option (List ℚ)) (pwt : ℚ)
    (ci ps ph : ℚ)
    (hres : resolve_history gross mi (cfg?.getD default_config) sb hrt hb hist
      = .ok (ci, ps, ph))
    (r : MonthlyResult)
    (hr_ok : takehome_shanghai gross mi cfg? sdm sb hrt hb hist pwt = .ok r) :
    r.cumulative_taxable_income
        = max 0 (ci - (ps + (calc_employee_social gross (cfg?.getD default_config) sb).total)
            - (ph + (calc_housing_fund gross (cfg?.getD default_config) hrt hb).amount)
            - (cfg?.getD default_config).standard_deduction_monthly * (mi : ℚ)
            - sdm * (mi : ℚ)) ∧
      0 ≤ r.cumulative_taxable_income := by
  simp only [takehome_shanghai] at hr_ok
  rw [hres] at hr_ok
  simp only [Except.ok.injEq] at hr_ok
  subst hr_ok
  refine ⟨assemble_cumulative_taxable_income _ _ _ _ _ _ _ _ _ _, ?_⟩
  rw [assemble_cumulative_taxable_income]
  exact le_max_left _ _

/-- Witness for C9 at the month-1, gross-30000 default run. -/
theorem reported_taxable_income_spec_witness :
    month1_result.cumulative_taxable_income
        = max 0 ((30000 : ℚ)
            - (0 + (calc_employee_social 30000 ((none : Option ShanghaiConfig).getD default_config) none).total)
            - (0 + (calc_housing_fund 30000 ((none : Option ShanghaiConfig).getD default_config) none none).amount)
            - ((none : Option ShanghaiConfig).getD default_config).standard_deduction_monthly * ((1 : ℤ) : ℚ)
            - 0 * ((1 : ℤ) : ℚ)) ∧
      0 ≤ month1_result.cumulative_taxable_income :=
  reported_taxable_income_spec 30000 1 none 0 none none none none 0 30000 0 0
    (by norm_num [resolve_history, calc_employee_social, calc_housing_fund,
      _clamp, default_config])
    month1_result
    (by norm_num [takehome_shanghai, resolve_history, assemble, calc_employee_social,
      calc_housing_fund, _clamp, _tax_on_cumulative_taxable, taxScan,
      month1_result, default_config])

/-- Claim C1: for month N ≥ 1 the flat-assumption path (no explicit history)
returns exactly the same result record as supplying an explicit history of
N − 1 copies of the same gross salary with the same overrides. -/
theorem flat_assumption_equiv (gross : ℚ) (cfg? : Option ShanghaiConfig)
    (sdm : ℚ) (sb hrt hb : Option ℚ) (pwt : ℚ) (N : ℤ) (hN : 1 ≤ N) :
    takehome_shanghai gross N cfg? sdm sb hrt hb none pwt
      = takehome_shanghai gross N cfg? sdm sb hrt hb
          (some (List.replicate (N - 1).toNat gross)) pwt := by
  have hk : (((N - 1).toNat : ℤ)) = N - 1 := Int.toNat_of_nonneg (by omega)
  have hq : (((N - 1).toNat : ℚ)) = (N : ℚ) - 1 := by
    have h2 : (((N - 1).toNat : ℤ) : ℚ) = ((N - 1 : ℤ) : ℚ) := by rw [hk]
    simpa using h2
  have hres : resolve_history gross N (cfg?.getD default_config) sb hrt hb none
      = resolve_history gross N (cfg?.getD default_config) sb hrt hb
          (some (List.replicate (N - 1).toNat gross)) := by
    have hcond : ¬(((List.replicate (N - 1).toNat gross).length : ℤ) ≠ N - 1) := by
      rw [List.length_replicate]
      omega
    have hmax : (max 0 (N - 1) : ℤ) = N - 1 := by omega
    simp only [resolve_history, if_neg hcond, List.map_replicate,
      List.sum_replicate, nsmul_eq_mul, hmax]
    rw [Except.ok.injEq, Prod.mk.injEq, Prod.mk.injEq]
    refine ⟨?_, ?_, ?_⟩ <;> rw [hq] <;> push_cast <;> ring
  simp only [takehome_shanghai]
  rw [hres]

/-- Witness for C1 at month 3 with gross salary 10000. -/
theorem flat_assumption_equiv_witness :
    (1 : ℤ) ≤ 3 ∧
      takehome_shanghai 10000 3 none 0 none none none none 0
        = takehome_shanghai 10000 3 none 0 none none none
            (some (List.replicate ((3 : ℤ) - 1).toNat 10000)) 0 :=
  ⟨by norm_num, flat_assumption_equiv 10000 none 0 none none none 0 3 (by norm_num)⟩

end ShanghaiPay
